import Mathlib

/-!
Shallow embedding of the flower.hero wedding-invitation page.

The repository has two source components (`src/unnamed/part_000`, the SVG
hero, and `src/unnamed/part_001`, the full page).  Both contain a procedural
rose generator (golden-angle petal layout), a small 12-petal icon, a static
animation timeline (per-element delay/duration constants), and — in
`part_001` — the RSVP form with a clamped guest counter.

JavaScript numbers are IEEE doubles; we model the arithmetic exactly with
`ℚ` (and `ℝ` where `Math.sqrt` appears).  All constant inputs appearing in
the claims are small enough that the double computations in the source
round to the exact rational values (checked by hand for the floor
expressions at the divisibility boundaries i·9 ≡ 0 mod petalCount), so the
exact model is faithful on the claimed inputs.
-/

namespace FlowerHero

/-- Source: `GOLDEN_ANGLE = 137.508` (both files, line 13/14). -/
def GOLDEN_ANGLE : ℚ := 137.508

/-- Source: `NUM_PETALS = 24` (both files). -/
def NUM_PETALS : ℕ := 24

/-- Source: `ROSE_COLORS`: the 9 fixed wine-to-pink hex colors (both files). -/
def ROSE_COLORS : List String :=
  ["#6a1530", "#7a1e3a", "#8e2845", "#a83458", "#c04668",
   "#d46080", "#e07898", "#ec98b0", "#f4b0c4"]

/-! ### The large-rose generator of `part_000` (`SvgRose`, lines 38–67) -/

namespace SvgRose

/-- Source: `const angle = i * GOLDEN_ANGLE;` (part_000 line 39). -/
def angle (i : ℕ) : ℚ := i * GOLDEN_ANGLE

/-- Source: `const dist = Math.sqrt(i) * 5.5;` (part_000 line 42). -/
noncomputable def dist (i : ℕ) : ℝ := Real.sqrt i * 5.5

/-- Source: `const petalScale = 0.35 + (i / NUM_PETALS) * 0.75;` (part_000 line 46). -/
def petalScale (i : ℕ) : ℚ := 0.35 + (i / NUM_PETALS : ℚ) * 0.75

/-- The unclamped floor inside the `Math.min`:
`Math.floor((i / NUM_PETALS) * ROSE_COLORS.length)` (part_000 line 49). -/
def ciRaw (i : ℕ) : ℤ := ⌊(i / NUM_PETALS : ℚ) * ROSE_COLORS.length⌋

/-- Source: `const ci = Math.min(Math.floor(...), ROSE_COLORS.length - 1);`
(part_000 lines 48–51). -/
def ci (i : ℕ) : ℤ := min (ciRaw i) (ROSE_COLORS.length - 1)

/-- The petal group rotation `rotate(angle + 90)` (part_000 line 56). -/
def rotation (i : ℕ) : ℚ := angle i + 90

/-- The petal transition delay `delay + i * 0.04` (part_000 line 65). -/
def petalDelay (delay : ℚ) (i : ℕ) : ℚ := delay + i * 0.04

end SvgRose

/-! ### The large-rose generator of `part_001` (`Rose`, lines 49–74),
embedded separately from its own source text so the two can be compared. -/

namespace Rose

/-- Source: `const angle = i * GOLDEN_ANGLE;` (part_001 line 50). -/
def angle (i : ℕ) : ℚ := i * GOLDEN_ANGLE

/-- Source: `const dist = Math.sqrt(i) * 5.5;` (part_001 line 52). -/
noncomputable def dist (i : ℕ) : ℝ := Real.sqrt i * 5.5

/-- Source: `const petalScale = 0.35 + (i / NUM_PETALS) * 0.75;` (part_001 line 55). -/
def petalScale (i : ℕ) : ℚ := 0.35 + (i / NUM_PETALS : ℚ) * 0.75

/-- Source: `Math.floor((i / NUM_PETALS) * ROSE_COLORS.length)` (part_001 line 57). -/
def ciRaw (i : ℕ) : ℤ := ⌊(i / NUM_PETALS : ℚ) * ROSE_COLORS.length⌋

/-- Source: `const ci = Math.min(..., ROSE_COLORS.length - 1);` (part_001 lines 56–59). -/
def ci (i : ℕ) : ℤ := min (ciRaw i) (ROSE_COLORS.length - 1)

/-- The petal group rotation `rotate(angle + 90)` (part_001 line 63). -/
def rotation (i : ℕ) : ℚ := angle i + 90

/-- The petal transition delay `delay + i * 0.04` (part_001 line 72). -/
def petalDelay (delay : ℚ) (i : ℕ) : ℚ := delay + i * 0.04

end Rose

/-! ### The small 12-petal icon (`SmallRoseIcon`, part_000 lines 93–101 and
identically part_001 lines 131–139) -/

namespace SmallRoseIcon

/-- Source: `const a = i * GOLDEN_ANGLE;` (part_000 line 94). -/
def a (i : ℕ) : ℚ := i * GOLDEN_ANGLE

/-- Source: `const d = Math.sqrt(i) * 4;` (part_000 line 96). -/
noncomputable def d (i : ℕ) : ℝ := Real.sqrt i * 4

/-- Source: `const s = 0.4 + (i / 12) * 0.6;` (part_000 line 97). -/
def s (i : ℕ) : ℚ := 0.4 + (i / 12 : ℚ) * 0.6

/-- Source: `Math.floor((i / 12) * ROSE_COLORS.length)` (part_000 line 99). -/
def ciRaw (i : ℕ) : ℤ := ⌊(i / 12 : ℚ) * ROSE_COLORS.length⌋

/-- Source: `const ci = Math.min(..., ROSE_COLORS.length - 1);` (part_000 lines 98–101). -/
def ci (i : ℕ) : ℤ := min (ciRaw i) (ROSE_COLORS.length - 1)

end SmallRoseIcon

/-! ### RSVP guest counter (`Home` in part_001) -/

/-- Source: `const [guests, setGuests] = useState(2);` (part_001 line 215). -/
def initialGuests : ℤ := 2

/-- The decrement button: `setGuests((g) => Math.max(1, g - 1))`
(part_001 line 552). -/
def decGuests (g : ℤ) : ℤ := max 1 (g - 1)

/-- The increment button: `setGuests((g) => Math.min(10, g + 1))`
(part_001 line 562). -/
def incGuests (g : ℤ) : ℤ := min 10 (g + 1)

/-- A click on one of the two counter buttons. -/
inductive GuestClick where
  | dec
  | inc
deriving DecidableEq

/-- The state transition performed by one click. -/
def applyClick : GuestClick → ℤ → ℤ
  | .dec, g => decGuests g
  | .inc, g => incGuests g

/-- The counter value after a finite sequence of clicks, starting from the
initial `useState(2)` value. -/
def runClicks (cs : List GuestClick) : ℤ :=
  cs.foldl (fun g c => applyClick c g) initialGuests

/-! ### RSVP form submission (`Home` in part_001, lines 523–530)

The form element carries `onSubmit={(e) => e.preventDefault()}`: the handler
body consists of the single call `e.preventDefault()`.  We model the submit
event by its `defaultPrevented` flag, the component state by the single
`useState` value, and possible side effects by an explicit effect list; the
handler invokes no state setter and no network/storage API, so it emits no
effect. -/

/-- A browser form-submit event, reduced to the one observable field the
handler touches. -/
structure SubmitEvent where
  defaultPrevented : Bool
deriving DecidableEq

/-- Source: `e.preventDefault()` sets the event's `defaultPrevented` flag. -/
def preventDefault (e : SubmitEvent) : SubmitEvent :=
  { e with defaultPrevented := true }

/-- The component state of `Home`: its only `useState` hook is the guest
counter (part_001 line 215). -/
structure HomeState where
  guests : ℤ
deriving DecidableEq

/-- Side effects a submit handler could perform. -/
inductive Effect where
  | networkCall
  | persist
deriving DecidableEq

/-- Source: `onSubmit={(e) => e.preventDefault()}` (part_001 line 529): the handler
calls `preventDefault` and nothing else — no setter, no fetch, no storage. -/
def onSubmit (e : SubmitEvent) (s : HomeState) :
    SubmitEvent × HomeState × List Effect :=
  (preventDefault e, s, [])

/-! ### Hero animation timeline (`Home` in part_001, lines 242–306, and
`RoseCluster`, lines 160–184)

Every `transition` in the hero section carries only constant `delay` and
`duration` values; each element animates over `[delay, delay + duration)`.
No entry reads another element's animation state, so the reveal order is
fixed by these constants alone. -/

/-- One framer-motion transition: a constant delay and duration. -/
structure TimelineEntry where
  delay : ℚ
  duration : ℚ
deriving DecidableEq

/-- The instant an entry's animation finishes: `delay + duration`. -/
def endTime (e : TimelineEntry) : ℚ := e.delay + e.duration

namespace Hero

/-- Title stroke draw: `strokeDashoffset: { duration: 2, ..., delay: 0.3 }`
(part_001 line 255). -/
def titleStroke : TimelineEntry := ⟨0.3, 2⟩

/-- Title fill fade: `fillOpacity: { duration: 0.8, ..., delay: 1.8 }`
(part_001 line 256). -/
def titleFill : TimelineEntry := ⟨1.8, 0.8⟩

/-- First separator: `{ duration: 0.8, delay: 2.3 }` (part_001 line 272). -/
def separator1 : TimelineEntry := ⟨2.3, 0.8⟩

/-- Location text: `{ duration: 0.8, ..., delay: 2.5 }` (part_001 line 283). -/
def locationText : TimelineEntry := ⟨2.5, 0.8⟩

/-- Second separator: `{ duration: 0.8, delay: 2.8 }` (part_001 line 292). -/
def separator2 : TimelineEntry := ⟨2.8, 0.8⟩

/-- Date text: `{ duration: 1, ..., delay: 3.0 }` (part_001 line 303). -/
def dateText : TimelineEntry := ⟨3.0, 1⟩

/-- Source: `const baseDelay = 2.2;` in `RoseCluster` (part_001 line 161). -/
def baseDelay : ℚ := 2.2

/-- The four `Rose` elements of a `RoseCluster`, in source order
(part_001 lines 170, 176, 177, 181); each `Rose`'s outer `motion.div` has
`transition={{ duration: 0.5, delay, ... }}` (part_001 line 46). -/
def clusterRoses : List TimelineEntry :=
  [⟨baseDelay + 0.1, 0.5⟩, ⟨baseDelay + 0.3, 0.5⟩,
   ⟨baseDelay + 0.4, 0.5⟩, ⟨baseDelay, 0.5⟩]

end Hero

end FlowerHero

/-! ## Helper lemmas -/

namespace FlowerHero

lemma length_ROSE_COLORS : ROSE_COLORS.length = 9 := rfl

lemma svg_ciRaw_eq (i : ℕ) : SvgRose.ciRaw i = ⌊(i : ℚ) / 24 * 9⌋ := by
  unfold SvgRose.ciRaw
  norm_num [NUM_PETALS, length_ROSE_COLORS]

lemma icon_ciRaw_eq (i : ℕ) : SmallRoseIcon.ciRaw i = ⌊(i : ℚ) / 12 * 9⌋ := by
  unfold SmallRoseIcon.ciRaw
  norm_num [length_ROSE_COLORS]

lemma svg_ciRaw_mono {i j : ℕ} (h : i ≤ j) : SvgRose.ciRaw i ≤ SvgRose.ciRaw j := by
  rw [svg_ciRaw_eq, svg_ciRaw_eq]
  apply Int.floor_le_floor
  have hij : (i : ℚ) ≤ j := by exact_mod_cast h
  gcongr

lemma svg_ciRaw_le_eight {i : ℕ} (h : i < 24) : SvgRose.ciRaw i ≤ 8 := by
  have h1 : (i : ℚ) < 24 := by exact_mod_cast h
  have h2 : (i : ℚ) / 24 * 9 < ((9 : ℤ) : ℚ) := by
    rw [div_mul_eq_mul_div, div_lt_iff₀ (by norm_num : (0:ℚ) < 24)]
    push_cast
    linarith
  have h3 := Int.floor_lt.mpr h2
  rw [svg_ciRaw_eq]
  omega

lemma icon_ciRaw_le_eight {i : ℕ} (h : i < 12) : SmallRoseIcon.ciRaw i ≤ 8 := by
  have h1 : (i : ℚ) < 12 := by exact_mod_cast h
  have h2 : (i : ℚ) / 12 * 9 < ((9 : ℤ) : ℚ) := by
    rw [div_mul_eq_mul_div, div_lt_iff₀ (by norm_num : (0:ℚ) < 12)]
    push_cast
    linarith
  have h3 := Int.floor_lt.mpr h2
  rw [icon_ciRaw_eq]
  omega

lemma svg_ci_eq_ciRaw {i : ℕ} (h : i < 24) : SvgRose.ci i = SvgRose.ciRaw i := by
  unfold SvgRose.ci
  have h8 : ((ROSE_COLORS.length : ℤ) - 1) = 8 := by norm_num [length_ROSE_COLORS]
  rw [h8]
  exact min_eq_left (svg_ciRaw_le_eight h)

lemma icon_ci_eq_ciRaw {i : ℕ} (h : i < 12) :
    SmallRoseIcon.ci i = SmallRoseIcon.ciRaw i := by
  unfold SmallRoseIcon.ci
  have h8 : ((ROSE_COLORS.length : ℤ) - 1) = 8 := by norm_num [length_ROSE_COLORS]
  rw [h8]
  exact min_eq_left (icon_ciRaw_le_eight h)

lemma rose_ci_eq_svg (i : ℕ) : Rose.ci i = SvgRose.ci i := rfl

lemma rose_ciRaw_eq_svg (i : ℕ) : Rose.ciRaw i = SvgRose.ciRaw i := rfl

lemma applyClick_mem {g : ℤ} (c : GuestClick) (h1 : 1 ≤ g) (h10 : g ≤ 10) :
    1 ≤ applyClick c g ∧ applyClick c g ≤ 10 := by
  cases c <;> simp [applyClick, decGuests, incGuests] <;> omega

lemma foldl_clicks_mem (cs : List GuestClick) :
    ∀ g : ℤ, 1 ≤ g → g ≤ 10 →
      1 ≤ cs.foldl (fun g c => applyClick c g) g ∧
        cs.foldl (fun g c => applyClick c g) g ≤ 10 := by
  induction cs with
  | nil =>
      intro g h1 h10
      simpa using ⟨h1, h10⟩
  | cons c cs ih =>
      intro g h1 h10
      have h := applyClick_mem c h1 h10
      simpa using ih (applyClick c g) h.1 h.2

end FlowerHero

/-! ## Claim theorems -/

namespace FlowerHero

/-- C1: the RSVP guest counter starts at 2; a decrement click replaces `g`
by `max 1 (g - 1)` and an increment click by `min 10 (g + 1)`; hence every
finite click sequence keeps the counter in `[1, 10]`, a decrement at 1
leaves it at 1, and an increment at 10 leaves it at 10. -/
theorem c1_guest_counter_clamped :
    initialGuests = 2 ∧
    (∀ g : ℤ, applyClick .dec g = max 1 (g - 1)) ∧
    (∀ g : ℤ, applyClick .inc g = min 10 (g + 1)) ∧
    (∀ cs : List GuestClick, 1 ≤ runClicks cs ∧ runClicks cs ≤ 10) ∧
    applyClick .dec 1 = 1 ∧
    applyClick .inc 10 = 10 := by
  refine ⟨rfl, fun g => rfl, fun g => rfl, ?_, by decide, by decide⟩
  intro cs
  exact foldl_clicks_mem cs initialGuests (by decide) (by decide)

/-- C2: for the large rose (petalCount 24, goldenAngle 137.508) the petal at
index 5 has angle `5 × 137.508 = 687.54` degrees, radial distance
`√5 × 5.5 ≈ 12.298` (bracketed here between 12.298 and 12.299), and color
index `⌊(5/24) × 9⌋ = 1`. -/
theorem c2_large_rose_petal_five :
    SvgRose.angle 5 = 687.54 ∧
    SvgRose.dist 5 = Real.sqrt 5 * 5.5 ∧
    12.298 < SvgRose.dist 5 ∧ SvgRose.dist 5 < 12.299 ∧
    SvgRose.ci 5 = 1 := by
  have hcast : ((5 : ℕ) : ℝ) = 5 := by norm_num
  have hd : SvgRose.dist 5 = Real.sqrt 5 * 5.5 := by
    unfold SvgRose.dist
    rw [hcast]
  have hl : (2.23601 : ℝ) < Real.sqrt 5 :=
    (Real.lt_sqrt (by norm_num)).mpr (by norm_num)
  have hu : Real.sqrt 5 < 2.23607 :=
    (Real.sqrt_lt' (by norm_num)).mpr (by norm_num)
  refine ⟨?_, hd, ?_, ?_, ?_⟩
  · norm_num [SvgRose.angle, GOLDEN_ANGLE]
  · rw [hd]; nlinarith
  · rw [hd]; nlinarith
  · rw [svg_ci_eq_ciRaw (by norm_num), svg_ciRaw_eq]
    norm_num

/-- C3: for petal indices in `[0, petalCount)` the color index
`min ⌊(i / petalCount) × paletteSize⌋ (paletteSize − 1)` is monotonically
non-decreasing in `i` and stays strictly below the palette size 9, in both
rose implementations. -/
theorem c3_color_index_monotone_bounded :
    (∀ i j : ℕ, i ≤ j → j < NUM_PETALS → SvgRose.ci i ≤ SvgRose.ci j) ∧
    (∀ i : ℕ, i < NUM_PETALS → SvgRose.ci i < (ROSE_COLORS.length : ℤ)) ∧
    (∀ i j : ℕ, i ≤ j → j < NUM_PETALS → Rose.ci i ≤ Rose.ci j) ∧
    (∀ i : ℕ, i < NUM_PETALS → Rose.ci i < (ROSE_COLORS.length : ℤ)) := by
  have hmono : ∀ i j : ℕ, i ≤ j → j < NUM_PETALS → SvgRose.ci i ≤ SvgRose.ci j := by
    intro i j hij hj
    exact min_le_min (svg_ciRaw_mono hij) le_rfl
  have hlt : ∀ i : ℕ, i < NUM_PETALS → SvgRose.ci i < (ROSE_COLORS.length : ℤ) := by
    intro i _
    have h := min_le_right (SvgRose.ciRaw i) ((ROSE_COLORS.length : ℤ) - 1)
    unfold SvgRose.ci
    omega
  exact ⟨hmono, hlt, fun i j hij hj => (rose_ci_eq_svg i) ▸ (rose_ci_eq_svg j) ▸ hmono i j hij hj,
    fun i hi => (rose_ci_eq_svg i) ▸ hlt i hi⟩

/-- Witness for C3 at `i = 2`, `j = 5`. -/
theorem c3_color_index_monotone_bounded_witness :
    SvgRose.ci 2 ≤ SvgRose.ci 5 ∧ SvgRose.ci 5 < (ROSE_COLORS.length : ℤ) ∧
    Rose.ci 2 ≤ Rose.ci 5 ∧ Rose.ci 5 < (ROSE_COLORS.length : ℤ) :=
  ⟨c3_color_index_monotone_bounded.1 2 5 (by decide) (by decide),
   c3_color_index_monotone_bounded.2.1 5 (by decide),
   c3_color_index_monotone_bounded.2.2.1 2 5 (by decide) (by decide),
   c3_color_index_monotone_bounded.2.2.2 5 (by decide)⟩

/-- C4: each petal's reveal delay is `baseDelay + i × 0.04`, and for indices
in `[0, petalCount)` this is strictly increasing in `i` (so petals reveal
strictly in order from center outward), in both rose implementations. -/
theorem c4_reveal_delay_strictly_increasing :
    (∀ (d : ℚ) (i : ℕ), SvgRose.petalDelay d i = d + i * 0.04) ∧
    (∀ (d : ℚ) (i j : ℕ), i < j → j < NUM_PETALS →
      SvgRose.petalDelay d i < SvgRose.petalDelay d j) ∧
    (∀ (d : ℚ) (i : ℕ), Rose.petalDelay d i = d + i * 0.04) ∧
    (∀ (d : ℚ) (i j : ℕ), i < j → j < NUM_PETALS →
      Rose.petalDelay d i < Rose.petalDelay d j) := by
  have hmono : ∀ (d : ℚ) (i j : ℕ), i < j →
      SvgRose.petalDelay d i < SvgRose.petalDelay d j := by
    intro d i j hij
    unfold SvgRose.petalDelay
    have h : (i : ℚ) < j := by exact_mod_cast hij
    have h2 : (i : ℚ) * 0.04 < j * 0.04 := by
      apply mul_lt_mul_of_pos_right h
      norm_num
    linarith
  exact ⟨fun d i => rfl, fun d i j hij _ => hmono d i j hij,
    fun d i => rfl, fun d i j hij _ => hmono d i j hij⟩

/-- Witness for C4 at `d = 2.3`, `i = 0`, `j = 1`. -/
theorem c4_reveal_delay_strictly_increasing_witness :
    SvgRose.petalDelay 2.3 0 < SvgRose.petalDelay 2.3 1 ∧
    Rose.petalDelay 2.3 0 < Rose.petalDelay 2.3 1 :=
  ⟨c4_reveal_delay_strictly_increasing.2.1 2.3 0 1 (by decide) (by decide),
   c4_reveal_delay_strictly_increasing.2.2.2 2.3 0 1 (by decide) (by decide)⟩

/-- C5: submitting the RSVP form only cancels the default action: the
handler sets `defaultPrevented`, emits no network or persistence effect, and
leaves the component state (the guest counter) unchanged. -/
theorem c5_submit_is_captured_noop :
    ∀ (e : SubmitEvent) (s : HomeState),
      (onSubmit e s).1.defaultPrevented = true ∧
      (onSubmit e s).2.1 = s ∧
      (onSubmit e s).2.2 = [] :=
  fun _ _ => ⟨rfl, rfl, rfl⟩

/-- C6 counterexample: the small icon's petal scale at index 0 is 0.4, not
the large-rose formula value `0.35 + (0/12) × 0.75 = 0.35`. -/
theorem c6_counterexample :
    SmallRoseIcon.s 0 ≠ 0.35 + ((0 : ℕ) / 12 : ℚ) * 0.75 := by
  norm_num [SmallRoseIcon.s]

/-- C6 (amended): the small icon uses the same golden-angle layout with
petalCount 12, but its petal scale is `0.4 + (i / 12) × 0.6`, not the large
rose's `0.35 + (i / petalCount) × 0.75`. -/
theorem c6_small_icon_petal_scale (i : ℕ) (_h : i < 12) :
    SmallRoseIcon.s i = 0.4 + (i / 12 : ℚ) * 0.6 ∧
    SmallRoseIcon.a i = i * GOLDEN_ANGLE :=
  ⟨rfl, rfl⟩

/-- Witness for C6 (amended) at `i = 3`. -/
theorem c6_small_icon_petal_scale_witness :
    SmallRoseIcon.s 3 = 0.4 + ((3 : ℕ) / 12 : ℚ) * 0.6 :=
  (c6_small_icon_petal_scale 3 (by decide)).1

/-- C7 counterexample: the first hero separator's animation window is
`[2.3, 2.3 + 0.8) = [2.3, 3.1)`, whose end 3.1 is not the claimed 2.8. -/
theorem c7_counterexample :
    endTime Hero.separator1 = 3.1 ∧ (3.1 : ℚ) ≠ 2.8 := by
  constructor
  · norm_num [endTime, Hero.separator1]
  · norm_num

/-- C7 (amended): the hero reveal is driven purely by static per-element
delay/duration constants, each element animating over
`[delay, delay + duration)`: title stroke 0.3–2.3, fill 1.8–2.6, side roses
2.2–3.1, first separator 2.3–3.1, second separator 2.8–3.6, location text
2.5–3.3, date text 3.0–4.0; no element's timing depends on another
element's runtime completion. -/
theorem c7_hero_timeline_windows :
    (Hero.titleStroke.delay = 0.3 ∧ endTime Hero.titleStroke = 2.3) ∧
    (Hero.titleFill.delay = 1.8 ∧ endTime Hero.titleFill = 2.6) ∧
    ((∀ e ∈ Hero.clusterRoses, 2.2 ≤ e.delay ∧ endTime e ≤ 3.1) ∧
      (∃ e ∈ Hero.clusterRoses, e.delay = 2.2) ∧
      (∃ e ∈ Hero.clusterRoses, endTime e = 3.1)) ∧
    (Hero.separator1.delay = 2.3 ∧ endTime Hero.separator1 = 3.1) ∧
    (Hero.separator2.delay = 2.8 ∧ endTime Hero.separator2 = 3.6) ∧
    (Hero.locationText.delay = 2.5 ∧ endTime Hero.locationText = 3.3) ∧
    (Hero.dateText.delay = 3 ∧ endTime Hero.dateText = 4) := by
  refine ⟨⟨rfl, by norm_num [endTime, Hero.titleStroke]⟩,
    ⟨rfl, by norm_num [endTime, Hero.titleFill]⟩,
    ⟨?_, ?_, ?_⟩,
    ⟨rfl, by norm_num [endTime, Hero.separator1]⟩,
    ⟨rfl, by norm_num [endTime, Hero.separator2]⟩,
    ⟨rfl, by norm_num [endTime, Hero.locationText]⟩,
    ⟨by norm_num [Hero.dateText], by norm_num [endTime, Hero.dateText]⟩⟩
  · intro e he
    simp only [Hero.clusterRoses, List.mem_cons, List.not_mem_nil, or_false] at he
    rcases he with h | h | h | h <;>
      · subst h
        constructor <;> norm_num [endTime, Hero.baseDelay]
  · exact ⟨⟨Hero.baseDelay, 0.5⟩, by simp [Hero.clusterRoses], rfl⟩
  · refine ⟨⟨Hero.baseDelay + 0.4, 0.5⟩, by simp [Hero.clusterRoses], ?_⟩
    norm_num [endTime, Hero.baseDelay]

/-- Witness for C7 (amended): the bounded-membership part applied to the
first cluster rose. -/
theorem c7_hero_timeline_windows_witness :
    2.2 ≤ (⟨Hero.baseDelay + 0.1, 0.5⟩ : TimelineEntry).delay ∧
    endTime (⟨Hero.baseDelay + 0.1, 0.5⟩ : TimelineEntry) ≤ 3.1 :=
  c7_hero_timeline_windows.2.2.1.1 ⟨Hero.baseDelay + 0.1, 0.5⟩
    (by simp [Hero.clusterRoses])

/-- C8: boundary values of the 24-petal rose: the first petal is exactly
centered (`dist 0 = √0 × 5.5 = 0`), its scale is 0.35, and the last petal's
scale is `0.35 + 0.75 × 23/24`, strictly below 1.1. -/
theorem c8_boundary_values :
    SvgRose.dist 0 = 0 ∧
    SvgRose.petalScale 0 = 0.35 ∧
    SvgRose.petalScale 23 = 0.35 + 0.75 * (23 / 24 : ℚ) ∧
    SvgRose.petalScale 23 < 1.1 := by
  refine ⟨?_, ?_, ?_, ?_⟩
  · unfold SvgRose.dist
    simp
  · norm_num [SvgRose.petalScale, NUM_PETALS]
  · norm_num [SvgRose.petalScale, NUM_PETALS]
  · norm_num [SvgRose.petalScale, NUM_PETALS]

/-- C9: the two 24-petal rose implementations (`SvgRose` in part_000 and
`Rose` in part_001) compute identical per-petal values for every index in
`[0, 24)` and every delay parameter: angle, radial distance, petal scale,
color index, rotation, and reveal delay. -/
theorem c9_implementations_agree :
    ∀ i : ℕ, i < NUM_PETALS → ∀ d : ℚ,
      SvgRose.angle i = Rose.angle i ∧
      SvgRose.dist i = Rose.dist i ∧
      SvgRose.petalScale i = Rose.petalScale i ∧
      SvgRose.ci i = Rose.ci i ∧
      SvgRose.rotation i = Rose.rotation i ∧
      SvgRose.petalDelay d i = Rose.petalDelay d i :=
  fun _ _ _ => ⟨rfl, rfl, rfl, rfl, rfl, rfl⟩

/-- Witness for C9 at `i = 5`, `d = 2.3`. -/
theorem c9_implementations_agree_witness :
    SvgRose.angle 5 = Rose.angle 5 ∧
    SvgRose.dist 5 = Rose.dist 5 ∧
    SvgRose.petalScale 5 = Rose.petalScale 5 ∧
    SvgRose.ci 5 = Rose.ci 5 ∧
    SvgRose.rotation 5 = Rose.rotation 5 ∧
    SvgRose.petalDelay 2.3 5 = Rose.petalDelay 2.3 5 :=
  c9_implementations_agree 5 (by decide) 2.3

/-- C10: the clamp in the color-index computation is never exercised: for
every index below the petal count the unclamped floor is already at most 8,
so `Math.min` is the identity there and every palette access is in bounds
even without the clamp. -/
theorem c10_clamp_never_exercised :
    (∀ i : ℕ, i < 24 → SvgRose.ciRaw i ≤ 8 ∧ SvgRose.ci i = SvgRose.ciRaw i) ∧
    (∀ i : ℕ, i < 24 → Rose.ciRaw i ≤ 8 ∧ Rose.ci i = Rose.ciRaw i) ∧
    (∀ i : ℕ, i < 12 →
      SmallRoseIcon.ciRaw i ≤ 8 ∧ SmallRoseIcon.ci i = SmallRoseIcon.ciRaw i) := by
  refine ⟨fun i hi => ⟨svg_ciRaw_le_eight hi, svg_ci_eq_ciRaw hi⟩, fun i hi => ?_,
    fun i hi => ⟨icon_ciRaw_le_eight hi, icon_ci_eq_ciRaw hi⟩⟩
  rw [rose_ciRaw_eq_svg, rose_ci_eq_svg]
  exact ⟨svg_ciRaw_le_eight hi, svg_ci_eq_ciRaw hi⟩

/-- Witness for C10 at `i = 23` (large roses) and `i = 11` (small icon). -/
theorem c10_clamp_never_exercised_witness :
    (SvgRose.ciRaw 23 ≤ 8 ∧ SvgRose.ci 23 = SvgRose.ciRaw 23) ∧
    (Rose.ciRaw 23 ≤ 8 ∧ Rose.ci 23 = Rose.ciRaw 23) ∧
    (SmallRoseIcon.ciRaw 11 ≤ 8 ∧ SmallRoseIcon.ci 11 = SmallRoseIcon.ciRaw 11) :=
  ⟨c10_clamp_never_exercised.1 23 (by decide),
   c10_clamp_never_exercised.2.1 23 (by decide),
   c10_clamp_never_exercised.2.2 11 (by decide)⟩

end FlowerHero
